import Mathlib

/-!
Shallow embedding of the OTA rollback firmware:
- `OTADiagnostics.h` (update watchdog over a persisted boot ledger), and
- `PSK_OTA_UPDATE_ROLLBACK_ACK.ino` (update orchestrator: failure reporting,
  MQTT dispatch, OTA apply).

Persisted `Preferences` keys become the `Prefs` structure; `millis()` timestamps
are `Nat` (claims quantify over monotonic traces well inside the 32-bit range,
so unsigned wrap never engages); Arduino `String` is `List Char`; the MQTT
publish primitive and the HTTP update outcome are oracles passed as arguments.
`ESP.restart()` terminates the current boot, which the per-boot scheduler
`step` models by freezing a halted device.
-/

/-- Failure reasons persisted to flash, from the `FailureReason` enum in
`OTADiagnostics.h`. -/
inductive FailureReason where
  | none
  | crashLoop
  | wifiTimeout
  | mqttTimeout
  | unstable
  | ntpFailure
deriving DecidableEq, Repr

/-- The persisted boot ledger: the three `Preferences` keys of the
`ota_diag` namespace (`boot_count`, `last_fail`, `fail_ota_id`). -/
structure Prefs where
  boot_count : Int
  last_fail : FailureReason
  fail_ota_id : List Char
deriving DecidableEq, Repr

/-- In-memory watchdog state for one boot plus the ledger it reads and
writes.  `halted` records that `ESP.restart()` has been reached (nothing of
this boot runs afterwards); `rollbackReason` records the argument of the
`triggerRollback` invocation, if any. -/
structure Diag where
  prefs : Prefs
  bootTime : Nat
  stabilityStartTime : Nat
  validated : Bool
  halted : Bool
  rollbackReason : Option FailureReason
deriving DecidableEq, Repr

namespace OTADiagnostics

/-- `STABILITY_DURATION` from `OTADiagnostics.h`: 60 s of continuous
connectivity required to validate. -/
def STABILITY_DURATION : Nat := 60000

/-- `TOTAL_PROBATION_LIMIT` from `OTADiagnostics.h`: 5 minute hard deadline
from boot to validate-or-rollback. -/
def TOTAL_PROBATION_LIMIT : Nat := 300000

/-- `MAX_CRASH_ATTEMPTS` from `OTADiagnostics.h`. -/
def MAX_CRASH_ATTEMPTS : Int := 3

/-- `triggerRollback`: persists the failure reason, resets `boot_count`
to 0, and restarts (both the `canRollBack` and the no-backup branch end in
`ESP.restart()`), hence `halted := true`. -/
def triggerRollback (reason : FailureReason) (d : Diag) : Diag :=
  { d with
      prefs := { d.prefs with last_fail := reason, boot_count := 0 },
      halted := true,
      rollbackReason := some reason }

/-- The local variable `boots` of `begin`: the previously persisted
`boot_count` plus one, written back by `prefs.putInt("boot_count", boots)`
before the crash-loop threshold test. -/
def beginBoots (p : Prefs) : Int := p.boot_count + 1

/-- `begin`: capture `millis()` as `bootTime`, reset the in-memory probation
state, increment and persist the boot counter, and trigger a crash-loop
rollback when the new counter exceeds `MAX_CRASH_ATTEMPTS`. -/
def begin (p : Prefs) (now : Nat) : Diag :=
  let boots := beginBoots p
  let d : Diag :=
    { prefs := { p with boot_count := boots },
      bootTime := now,
      stabilityStartTime := 0,
      validated := false,
      halted := false,
      rollbackReason := Option.none }
  if boots > MAX_CRASH_ATTEMPTS then triggerRollback FailureReason.crashLoop d else d

/-- `validateFirmware`: first call marks the image validated and clears
`boot_count`, `last_fail` and `fail_ota_id`; later calls return early. -/
def validateFirmware (d : Diag) : Diag :=
  if d.validated then d
  else
    { d with
        validated := true,
        prefs := { d.prefs with
                     boot_count := 0,
                     last_fail := FailureReason.none,
                     fail_ota_id := [] } }

/-- `check`: early return when validated; hard-deadline rollback with the
reason priority WiFi, then MQTT, then unstable; otherwise the continuous
stability monitor (`stabilityStartTime = 0` is the source code sentinel for
an unset timer). -/
def check (isWifiConnected isMqttConnected : Bool) (now : Nat) (d : Diag) : Diag :=
  if d.validated then d
  else if now - d.bootTime > TOTAL_PROBATION_LIMIT then
    if !isWifiConnected then triggerRollback FailureReason.wifiTimeout d
    else if !isMqttConnected then triggerRollback FailureReason.mqttTimeout d
    else triggerRollback FailureReason.unstable d
  else if isWifiConnected && isMqttConnected then
    let d1 := if d.stabilityStartTime = 0 then { d with stabilityStartTime := now } else d
    if now - d1.stabilityStartTime > STABILITY_DURATION then validateFirmware d1 else d1
  else
    if d.stabilityStartTime ≠ 0 then { d with stabilityStartTime := 0 } else d

/-- `clearFailure`: reset the persisted failure reason and OTA id. -/
def clearFailure (p : Prefs) : Prefs :=
  { p with last_fail := FailureReason.none, fail_ota_id := [] }

/-- `setPendingOTA`: persist the OTA id before an update attempt starts. -/
def setPendingOTA (otaId : List Char) (p : Prefs) : Prefs :=
  { p with fail_ota_id := otaId }

/-- `getLastFailureReason` accessor. -/
def getLastFailureReason (p : Prefs) : FailureReason := p.last_fail

/-- `getFailedOTAId` accessor. -/
def getFailedOTAId (p : Prefs) : List Char := p.fail_ota_id

end OTADiagnostics

/-- The watchdog operations a boot can perform after `begin`. -/
inductive WOp where
  | checkOp (isWifiConnected isMqttConnected : Bool) (now : Nat)
  | validateOp
  | rollbackOp (reason : FailureReason)
  | clearOp
  | setPendingOp (otaId : List Char)

/-- Per-boot scheduler: once `triggerRollback` has run, `ESP.restart()` has
fired and no further statement of this boot executes, so a halted device is
frozen. -/
def step (op : WOp) (d : Diag) : Diag :=
  if d.halted then d
  else
    match op with
    | WOp.checkOp w m now => OTADiagnostics.check w m now d
    | WOp.validateOp => OTADiagnostics.validateFirmware d
    | WOp.rollbackOp r => OTADiagnostics.triggerRollback r d
    | WOp.clearOp => { d with prefs := OTADiagnostics.clearFailure d.prefs }
    | WOp.setPendingOp otaId => { d with prefs := OTADiagnostics.setPendingOTA otaId d.prefs }

/-- One connectivity observation fed to `check` from `loop()`: the value of
`millis()` and the two link states. -/
structure Obs where
  t : Nat
  wifi : Bool
  mqtt : Bool
deriving DecidableEq, Repr

/-- Both links up at an observation. -/
def bothUp (o : Obs) : Bool := o.wifi && o.mqtt

/-- Run the first `n` observations of the trace `o` through `check`. -/
def runDiag (d0 : Diag) (o : Nat → Obs) : Nat → Diag
  | 0 => d0
  | n + 1 => step (WOp.checkOp (o n).wifi (o n).mqtt (o n).t) (runDiag d0 o n)

/-- Observations `i ≤ k < n` all have both links up. -/
def upTo (o : Nat → Obs) (i n : Nat) : Prop :=
  ∀ k, i ≤ k → k < n → bothUp (o k) = true

/-- Validation condition as the code realises it: a contiguous both-up run of
observations whose time span strictly exceeds `STABILITY_DURATION`, lying
within `[boot, boot + TOTAL_PROBATION_LIMIT]`. -/
def specValidatedStrict (boot : Nat) (o : Nat → Obs) (n : Nat) : Prop :=
  ∃ i j, i ≤ j ∧ j < n ∧ upTo o i (j + 1) ∧
    OTADiagnostics.STABILITY_DURATION < (o j).t - (o i).t ∧
    boot ≤ (o i).t ∧
    (o j).t ≤ boot + OTADiagnostics.TOTAL_PROBATION_LIMIT

/-- Validation condition in the words of the specification: a contiguous
both-up run of length at least `STABILITY_DURATION` ("length ≥
stability_duration"), lying within `[boot, boot + TOTAL_PROBATION_LIMIT]`.
Kept separate from `specValidatedStrict` to compare against the code. -/
def specValidatedAtLeast (boot : Nat) (o : Nat → Obs) (n : Nat) : Prop :=
  ∃ i j, i ≤ j ∧ j < n ∧ upTo o i (j + 1) ∧
    OTADiagnostics.STABILITY_DURATION ≤ (o j).t - (o i).t ∧
    boot ≤ (o i).t ∧
    (o j).t ≤ boot + OTADiagnostics.TOTAL_PROBATION_LIMIT

/-- `t_httpUpdate_return`: the tri-state result of `httpUpdate.update`. -/
inductive UpdateResult where
  | failed
  | noUpdates
  | ok
deriving DecidableEq, Repr

/-- Status field of an outbound OTA status report. -/
inductive OtaStatus where
  | failed
  | completed
deriving DecidableEq, Repr

/-- Orchestrator state for one boot of the `.ino` sketch: the shared ledger,
the MQTT connection flag, the once-per-boot `reportSent` guard, the lists of
successfully published cross-boot failure reports and OTA status reports,
and whether `ESP.restart()` was requested. -/
structure OrchState where
  prefs : Prefs
  connected : Bool
  reportSent : Bool
  failReports : List (FailureReason × List Char)
  statusReports : List (OtaStatus × List Char)
  restarted : Bool
deriving DecidableEq, Repr

/-- `reportRollback` from the sketch: guarded by `reportSent`; when a
non-`None` reason is persisted it publishes the failure report, and only a
successful `client.publish` (oracle `pubOk`) leads to `clearFailure` and
setting the guard. -/
def reportRollback (pubOk : Bool) (s : OrchState) : OrchState :=
  if s.reportSent then s
  else if OTADiagnostics.getLastFailureReason s.prefs = FailureReason.none then s
  else if pubOk then
    { s with
        prefs := OTADiagnostics.clearFailure s.prefs,
        reportSent := true,
        failReports := s.failReports ++
          [(OTADiagnostics.getLastFailureReason s.prefs,
            OTADiagnostics.getFailedOTAId s.prefs)] }
  else s

/-- Repeated re-entries of the reporting path (connectivity flaps), each with
its own publish outcome. -/
def runReports (outs : List Bool) (s : OrchState) : OrchState :=
  outs.foldl (fun s b => reportRollback b s) s

/-- Whether `needle` occurs at the head of `hay`. -/
def leadsList : List Char → List Char → Bool
  | [], _ => true
  | _ :: _, [] => false
  | a :: as, b :: bs => a == b && leadsList as bs

/-- Index of the first occurrence of `needle`, the model of Arduino
`String.indexOf` (which returns -1, here `none`, when absent). -/
def firstIndex (needle : List Char) : List Char → Option Nat
  | [] => if needle.isEmpty then some 0 else Option.none
  | c :: rest =>
    if leadsList needle (c :: rest) then some 0
    else Option.map (fun n => n + 1) (firstIndex needle rest)

/-- The dispatch key of `callback`. -/
def otaVersionKey : List Char := "otaVersion".toList

/-- The dispatch test of `callback`:
`message.indexOf("otaVersion") > 0`. -/
def hasVersionAfterStart (msg : List Char) : Bool :=
  match firstIndex otaVersionKey msg with
  | some i => decide (0 < i)
  | Option.none => false

/-- Skip blanks, for tolerance around `:` in the flat JSON payloads. -/
def dropSpaces : List Char → List Char
  | ' ' :: rest => dropSpaces rest
  | l => l

/-- Read characters up to the closing quote of a JSON string value. -/
def readUntilQuote : List Char → Option (List Char)
  | [] => Option.none
  | '"' :: _ => some []
  | c :: rest => Option.map (fun v => c :: v) (readUntilQuote rest)

/-- Read a quoted JSON string value. -/
def readQuoted : List Char → Option (List Char)
  | '"' :: rest => readUntilQuote rest
  | _ => Option.none

/-- The quoted key as it appears in the serialized object. -/
def keyPattern (key : List Char) : List Char := '"' :: key ++ ['"']

/-- Extraction of a string field from a flat JSON object: the model of
`deserializeJson` followed by `doc[key]` for the update-instruction payloads
of section 6 of the documentation (flat objects of string fields; a missing
field, like a failed parse, yields `none` and the handler returns with no
state change either way). -/
def jsonField (key : List Char) (msg : List Char) : Option (List Char) :=
  match firstIndex (keyPattern key) msg with
  | Option.none => Option.none
  | some i =>
    match dropSpaces (msg.drop (i + (keyPattern key).length)) with
    | ':' :: rest => readQuoted (dropSpaces rest)
    | _ => Option.none

/-- The three fields the handler reads from a parsed instruction. -/
structure OtaMsg where
  otaUrl : Option (List Char)
  otaId : Option (List Char)
  otaVersion : Option (List Char)
deriving DecidableEq, Repr

/-- Field extraction performed at the top of `handleOTAUpdate`. -/
def parseOta (msg : List Char) : OtaMsg :=
  { otaUrl := jsonField ("otaUrl".toList) msg,
    otaId := jsonField ("otaId".toList) msg,
    otaVersion := jsonField ("otaVersion".toList) msg }

/-- `publishOTAStatus`: publish a status report when connected (the sketch
ignores the publish return value here). -/
def publishOTAStatus (status : OtaStatus) (otaId : List Char) (s : OrchState) : OrchState :=
  if s.connected = false then s
  else { s with statusReports := s.statusReports ++ [(status, otaId)] }

/-- `handleOTAUpdate`: require `otaUrl` and `otaId` (a malformed or
incomplete payload returns with no state change), persist the pending OTA id,
run the updater (oracle `ret`), and act on the tri-state outcome.  The
`otaVersion` field is read in the source but used in no decision. -/
def handleOTAUpdate (ret : UpdateResult) (payload : List Char) (s : OrchState) : OrchState :=
  match (parseOta payload).otaUrl, (parseOta payload).otaId with
  | some _, some otaId =>
    let s1 : OrchState := { s with prefs := OTADiagnostics.setPendingOTA otaId s.prefs }
    match ret with
    | UpdateResult.failed =>
      let s2 := publishOTAStatus OtaStatus.failed otaId s1
      { s2 with prefs := OTADiagnostics.clearFailure s2.prefs }
    | UpdateResult.noUpdates =>
      let s2 := publishOTAStatus OtaStatus.failed otaId s1
      { s2 with prefs := OTADiagnostics.clearFailure s2.prefs }
    | UpdateResult.ok =>
      let s2 := publishOTAStatus OtaStatus.completed otaId s1
      { s2 with restarted := true }
  | _, _ => s

/-- `callback`: the MQTT message handler dispatches to `handleOTAUpdate`
exactly when `message.indexOf("otaVersion") > 0`. -/
def callback (ret : UpdateResult) (payload : List Char) (s : OrchState) : OrchState :=
  if hasVersionAfterStart payload then handleOTAUpdate ret payload s else s

/-- A fresh ledger, as on first boot: all keys at their defaults. -/
def freshPrefs : Prefs :=
  { boot_count := 0, last_fail := FailureReason.none, fail_ota_id := [] }

/-- Concrete trace: both links up at 1 ms and at 60001 ms, a contiguous
both-up interval of length exactly `STABILITY_DURATION`. -/
def cexObs : Nat → Obs :=
  fun k => if k = 0 then { t := 1, wifi := true, mqtt := true }
           else { t := 60001, wifi := true, mqtt := true }

/-- Concrete trace: both links up at 1 ms and at 60002 ms, a contiguous
both-up interval of length 60001 ms. -/
def cexObsW : Nat → Obs :=
  fun k => if k = 0 then { t := 1, wifi := true, mqtt := true }
           else { t := 60002, wifi := true, mqtt := true }

/-- Concrete watchdog state three boots into probation: persisted
`boot_count` is 3 and nothing has validated. -/
def dcex : Diag :=
  OTADiagnostics.begin { boot_count := 2, last_fail := FailureReason.none, fail_ota_id := [] } 1

/-- Fresh orchestrator state of a connected boot. -/
def orch0 : OrchState :=
  { prefs := freshPrefs, connected := true, reportSent := false,
    failReports := [], statusReports := [], restarted := false }

/-- Orchestrator state of a boot that follows an `Unstable` rollback
attributed to OTA id 33, before the failure is reported. -/
def orchFail : OrchState :=
  { prefs := { boot_count := 1, last_fail := FailureReason.unstable,
               fail_ota_id := "33".toList },
    connected := true, reportSent := false,
    failReports := [], statusReports := [], restarted := false }

/-- A well-formed update instruction carrying `otaUrl` and `otaId` but no
`otaVersion` field. -/
def cMsgNoVer : List Char :=
  "\x7b\"otaUrl\":\"https://example.com/fw.bin\",\"otaId\":\"33\"\x7d".toList

/-- The same update instruction with the optional `otaVersion` field. -/
def cMsgWithVer : List Char :=
  "\x7b\"otaVersion\":\"1.2\",\"otaUrl\":\"https://example.com/fw.bin\",\"otaId\":\"33\"\x7d".toList

/-- Proof invariant for `runDiag` traces started by a non-crash-looping
`begin`: the boot time is fixed; a validated state certifies a strict
stability window; a halted state certifies a deadline violation; and in an
active state the stability timer is exactly the start of the current
contiguous both-up run of observations. -/
def diagInv (boot : Nat) (o : Nat → Obs) (n : Nat) (d : Diag) : Prop :=
  d.bootTime = boot ∧
  (d.validated = true → specValidatedStrict boot o n) ∧
  (d.halted = true → ∃ k, k < n ∧ boot + OTADiagnostics.TOTAL_PROBATION_LIMIT < (o k).t) ∧
  (d.halted = false → d.validated = false →
    ((d.stabilityStartTime ≠ 0 →
        ∃ i, i < n ∧ d.stabilityStartTime = (o i).t ∧ upTo o i n) ∧
     (∀ i, i < n → upTo o i n →
        d.stabilityStartTime ≠ 0 ∧ d.stabilityStartTime ≤ (o i).t)))


theorem check_validated (w m : Bool) (t : Nat) (d : Diag) (hv : d.validated = true) :
    OTADiagnostics.check w m t d = d := by
  unfold OTADiagnostics.check
  rw [if_pos hv]

theorem check_deadline (w m : Bool) (t : Nat) (d : Diag)
    (hv : d.validated = false)
    (ht : OTADiagnostics.TOTAL_PROBATION_LIMIT < t - d.bootTime) :
    OTADiagnostics.check w m t d =
      OTADiagnostics.triggerRollback
        (if w = false then FailureReason.wifiTimeout
         else if m = false then FailureReason.mqttTimeout
         else FailureReason.unstable) d := by
  unfold OTADiagnostics.check
  rw [if_neg (by simp [hv]), if_pos ht]
  cases w <;> cases m <;> simp

theorem check_up_first (w m : Bool) (t : Nat) (d : Diag)
    (ht : ¬ OTADiagnostics.TOTAL_PROBATION_LIMIT < t - d.bootTime)
    (hup : (w && m) = true) (hs : d.stabilityStartTime = 0) :
    OTADiagnostics.check w m t d =
      (if d.validated = true then d else { d with stabilityStartTime := t }) := by
  unfold OTADiagnostics.check
  by_cases hv : d.validated = true
  · rw [if_pos hv, if_pos hv]
  · rw [if_neg hv, if_neg hv, if_neg ht, if_pos hup, if_pos hs]
    simp [OTADiagnostics.STABILITY_DURATION]

theorem check_up_fire (w m : Bool) (t : Nat) (d : Diag)
    (hv : d.validated = false)
    (ht : ¬ OTADiagnostics.TOTAL_PROBATION_LIMIT < t - d.bootTime)
    (hup : (w && m) = true) (hs : d.stabilityStartTime ≠ 0)
    (hf : OTADiagnostics.STABILITY_DURATION < t - d.stabilityStartTime) :
    OTADiagnostics.check w m t d = OTADiagnostics.validateFirmware d := by
  unfold OTADiagnostics.check
  rw [if_neg (by simp [hv]), if_neg ht, if_pos hup, if_neg hs]
  rw [if_pos hf]

theorem check_up_nofire (w m : Bool) (t : Nat) (d : Diag)
    (hv : d.validated = false)
    (ht : ¬ OTADiagnostics.TOTAL_PROBATION_LIMIT < t - d.bootTime)
    (hup : (w && m) = true) (hs : d.stabilityStartTime ≠ 0)
    (hf : ¬ OTADiagnostics.STABILITY_DURATION < t - d.stabilityStartTime) :
    OTADiagnostics.check w m t d = d := by
  unfold OTADiagnostics.check
  rw [if_neg (by simp [hv]), if_neg ht, if_pos hup, if_neg hs]
  rw [if_neg hf]

theorem check_down (w m : Bool) (t : Nat) (d : Diag)
    (hv : d.validated = false)
    (ht : ¬ OTADiagnostics.TOTAL_PROBATION_LIMIT < t - d.bootTime)
    (hup : (w && m) = false) :
    OTADiagnostics.check w m t d = { d with stabilityStartTime := 0 } := by
  unfold OTADiagnostics.check
  rw [if_neg (by simp [hv]), if_neg ht, if_neg (by simp [hup])]
  by_cases hs : d.stabilityStartTime ≠ 0
  · rw [if_pos hs]
  · rw [if_neg hs]
    push_neg at hs
    cases d
    simp_all

theorem begin_of_le (p : Prefs) (t : Nat)
    (hp : OTADiagnostics.beginBoots p ≤ OTADiagnostics.MAX_CRASH_ATTEMPTS) :
    OTADiagnostics.begin p t =
      { prefs := { p with boot_count := OTADiagnostics.beginBoots p },
        bootTime := t,
        stabilityStartTime := 0,
        validated := false,
        halted := false,
        rollbackReason := Option.none } := by
  unfold OTADiagnostics.begin
  rw [if_neg (not_lt.mpr hp)]

theorem begin_boot_count (p : Prefs) (t : Nat) :
    (OTADiagnostics.begin p t).prefs.boot_count =
      if OTADiagnostics.MAX_CRASH_ATTEMPTS < OTADiagnostics.beginBoots p
      then 0 else OTADiagnostics.beginBoots p := by
  unfold OTADiagnostics.begin OTADiagnostics.triggerRollback
  split
  · rw [if_pos (by assumption)]
  · rw [if_neg (by assumption)]

theorem step_check_eq (w m : Bool) (t : Nat) (d : Diag) (hh : d.halted = false) :
    step (WOp.checkOp w m t) d = OTADiagnostics.check w m t d := by
  simp [step, hh]

theorem step_check_frozen (w m : Bool) (t : Nat) (d : Diag)
    (h : d.halted = true ∨ d.validated = true) :
    step (WOp.checkOp w m t) d = d := by
  rcases h with h | h
  · simp [step, h]
  · cases hh : d.halted
    · rw [step_check_eq w m t d hh, check_validated w m t d h]
    · simp [step, hh]

/-- C9: within one boot, a second `validate` call is a no-op (the
`_validated` guard), and once `trigger_rollback` has run the boot is over
(`ESP.restart()` fires on both of its branches), so further `validate` or
`trigger_rollback` calls never execute and change nothing: repeated calls
have the same observable effect — on the in-memory probation state and on
the persisted ledger alike — as a single call. -/
theorem validate_rollback_idem (d : Diag) (r r2 : FailureReason) :
    step WOp.validateOp (step WOp.validateOp d) = step WOp.validateOp d ∧
    step (WOp.rollbackOp r2) (step (WOp.rollbackOp r) d) = step (WOp.rollbackOp r) d ∧
    step WOp.validateOp (step (WOp.rollbackOp r) d) = step (WOp.rollbackOp r) d := by
  refine ⟨?_, ?_, ?_⟩ <;>
    cases hh : d.halted <;>
      cases hv : d.validated <;>
        simp [step, OTADiagnostics.validateFirmware, OTADiagnostics.triggerRollback, hh, hv]

/-- C4 counterexample: on a boot with three boot attempts persisted and
nothing validated, `triggerRollback` also writes `boot_count = 0`, on a boot
that never validated — so validation is not the only operation that resets
the persisted counter to zero. -/
theorem rollback_also_resets_boot_count :
    dcex.prefs.boot_count = 3 ∧
    dcex.validated = false ∧
    (OTADiagnostics.triggerRollback FailureReason.wifiTimeout dcex).prefs.boot_count = 0 ∧
    (OTADiagnostics.triggerRollback FailureReason.wifiTimeout dcex).validated = false := by
  decide

/-- C4 (amended): the persisted `boot_count` is reset to 0 exactly when the
image validates or a rollback is triggered — `validateFirmware` (on its
first call) and `triggerRollback` are the two writers of 0, and a `check`
call changes the counter only to 0 and only when it validated or rolled
back — while `begin` persists exactly the previous value plus 1
(`beginBoots`), which stands unless `begin` itself detects a crash loop and
its rollback resets the counter to 0; `clearFailure` and `setPendingOTA`
never touch the counter. -/
theorem boot_count_write_discipline (d : Diag) (p : Prefs) (t : Nat)
    (w m : Bool) (r : FailureReason) (otaId : List Char) :
    ((OTADiagnostics.validateFirmware d).prefs.boot_count =
        if d.validated then d.prefs.boot_count else 0) ∧
    ((OTADiagnostics.triggerRollback r d).prefs.boot_count = 0) ∧
    (OTADiagnostics.beginBoots p = p.boot_count + 1) ∧
    ((OTADiagnostics.begin p t).prefs.boot_count =
        if OTADiagnostics.MAX_CRASH_ATTEMPTS < OTADiagnostics.beginBoots p
        then 0 else OTADiagnostics.beginBoots p) ∧
    ((OTADiagnostics.check w m t d).prefs.boot_count = d.prefs.boot_count ∨
      ((OTADiagnostics.check w m t d).prefs.boot_count = 0 ∧
        ((OTADiagnostics.check w m t d).validated = true ∨
         (OTADiagnostics.check w m t d).halted = true))) ∧
    ((OTADiagnostics.clearFailure p).boot_count = p.boot_count) ∧
    ((OTADiagnostics.setPendingOTA otaId p).boot_count = p.boot_count) := by
  refine ⟨?_, rfl, rfl, begin_boot_count p t, ?_, rfl, rfl⟩
  · unfold OTADiagnostics.validateFirmware
    split <;> simp_all
  · by_cases hv : d.validated = true
    · rw [check_validated w m t d hv]
      exact Or.inl rfl
    · rw [Bool.not_eq_true] at hv
      by_cases ht : OTADiagnostics.TOTAL_PROBATION_LIMIT < t - d.bootTime
      · rw [check_deadline w m t d hv ht]
        exact Or.inr ⟨rfl, Or.inr rfl⟩
      · by_cases hup : (w && m) = true
        · by_cases hs : d.stabilityStartTime = 0
          · rw [check_up_first w m t d ht hup hs, if_neg (by simp [hv])]
            exact Or.inl rfl
          · by_cases hf : OTADiagnostics.STABILITY_DURATION < t - d.stabilityStartTime
            · rw [check_up_fire w m t d hv ht hup hs hf]
              refine Or.inr ⟨?_, Or.inl ?_⟩ <;>
                simp [OTADiagnostics.validateFirmware, hv]
            · rw [check_up_nofire w m t d hv ht hup hs hf]
              exact Or.inl rfl
        · rw [check_down w m t d hv ht (by simpa using hup)]
          exact Or.inl rfl

/-- C3: on an `observe` (`check`) call of a not-yet-validated image whose
elapsed time since boot exceeds `TOTAL_PROBATION_LIMIT`, the rollback reason
is chosen by fixed priority — primary (WiFi) link down gives `WifiTimeout`
regardless of the secondary link, otherwise secondary (MQTT) link down gives
`TransportTimeout` (`REASON_MQTT_TIMEOUT`), otherwise both links up gives
`Unstable` — and the reason is persisted while the call ends in rollback. -/
theorem probation_timeout_reason_priority (w m : Bool) (t : Nat) (d : Diag)
    (hv : d.validated = false)
    (ht : OTADiagnostics.TOTAL_PROBATION_LIMIT < t - d.bootTime) :
    (OTADiagnostics.check w m t d).rollbackReason =
      some (if w = false then FailureReason.wifiTimeout
            else if m = false then FailureReason.mqttTimeout
            else FailureReason.unstable) ∧
    (OTADiagnostics.check w m t d).prefs.last_fail =
      (if w = false then FailureReason.wifiTimeout
       else if m = false then FailureReason.mqttTimeout
       else FailureReason.unstable) ∧
    (OTADiagnostics.check w m t d).halted = true := by
  rw [check_deadline w m t d hv ht]
  exact ⟨rfl, rfl, rfl⟩

/-- C3 witness: a concrete call 300002 ms after a boot at 1 ms, with WiFi
down and MQTT up, rolls back with `WifiTimeout`. -/
theorem probation_timeout_reason_priority_witness :
    (OTADiagnostics.check false true 300002 (OTADiagnostics.begin freshPrefs 1)).rollbackReason =
      some FailureReason.wifiTimeout ∧
    (OTADiagnostics.check false true 300002 (OTADiagnostics.begin freshPrefs 1)).halted = true := by
  have h := probation_timeout_reason_priority false true 300002
    (OTADiagnostics.begin freshPrefs 1) (by decide) (by decide)
  exact ⟨by simpa using h.1, h.2.2⟩

theorem step_check_quiet (w m : Bool) (t : Nat) (d : Diag)
    (hv : (step (WOp.checkOp w m t) d).validated = false)
    (hh : (step (WOp.checkOp w m t) d).halted = false) :
    d.validated = false ∧ d.halted = false ∧
    (step (WOp.checkOp w m t) d).prefs = d.prefs := by
  by_cases h0 : d.halted = true
  · rw [step_check_frozen w m t d (Or.inl h0)] at hh
    exact absurd hh (by simp [h0])
  · rw [Bool.not_eq_true] at h0
    rw [step_check_eq w m t d h0] at hv hh ⊢
    by_cases h1 : d.validated = true
    · rw [check_validated w m t d h1] at hv
      exact absurd hv (by simp [h1])
    · rw [Bool.not_eq_true] at h1
      refine ⟨h1, h0, ?_⟩
      by_cases ht : OTADiagnostics.TOTAL_PROBATION_LIMIT < t - d.bootTime
      · rw [check_deadline w m t d h1 ht] at hh
        exact absurd hh (by simp [OTADiagnostics.triggerRollback])
      · by_cases hup : (w && m) = true
        · by_cases hs : d.stabilityStartTime = 0
          · rw [check_up_first w m t d ht hup hs, if_neg (by simp [h1])]
          · by_cases hf : OTADiagnostics.STABILITY_DURATION < t - d.stabilityStartTime
            · rw [check_up_fire w m t d h1 ht hup hs hf] at hv
              exact absurd hv (by simp [OTADiagnostics.validateFirmware, h1])
            · rw [check_up_nofire w m t d h1 ht hup hs hf]
        · rw [check_down w m t d h1 ht (by simpa using hup)]

theorem runDiag_quiet (d0 : Diag) (o : Nat → Obs) (n : Nat)
    (hv : (runDiag d0 o n).validated = false)
    (hh : (runDiag d0 o n).halted = false) :
    (runDiag d0 o n).prefs = d0.prefs ∧ d0.validated = false ∧ d0.halted = false := by
  induction n with
  | zero => exact ⟨rfl, hv, hh⟩
  | succ n ih =>
    have hq := step_check_quiet (o n).wifi (o n).mqtt (o n).t (runDiag d0 o n) hv hh
    have := ih hq.1 hq.2.1
    exact ⟨hq.2.2.trans this.1, this.2.1, this.2.2⟩

theorem begin_crash (p : Prefs) (t : Nat)
    (h : OTADiagnostics.MAX_CRASH_ATTEMPTS < OTADiagnostics.beginBoots p) :
    OTADiagnostics.begin p t =
      OTADiagnostics.triggerRollback FailureReason.crashLoop
        { prefs := { p with boot_count := OTADiagnostics.beginBoots p },
          bootTime := t, stabilityStartTime := 0, validated := false,
          halted := false, rollbackReason := Option.none } := by
  unfold OTADiagnostics.begin
  rw [if_pos h]

/-- C2: starting from a validated ledger (`boot_count = 0`), three boots
each running `begin` and then any sequence of `check` calls that neither
validates nor rolls back, followed by a fourth `begin`: the fourth `begin`
persists `boot_count = 4` (`beginBoots`), the new value exceeds
`MAX_CRASH_ATTEMPTS = 3`, and `triggerRollback(REASON_CRASH_LOOP)` is
invoked inside `begin` itself — so before any `check` of that boot — ending
the boot with the crash-loop reason persisted. -/
theorem crash_loop_on_fourth_begin
    (p0 : Prefs) (h0 : p0.boot_count = 0)
    (t1 t2 t3 t4 : Nat) (o1 o2 o3 : Nat → Obs) (n1 n2 n3 : Nat)
    (h1v : (runDiag (OTADiagnostics.begin p0 t1) o1 n1).validated = false)
    (h1h : (runDiag (OTADiagnostics.begin p0 t1) o1 n1).halted = false)
    (p1 : Prefs) (e1 : p1 = (runDiag (OTADiagnostics.begin p0 t1) o1 n1).prefs)
    (h2v : (runDiag (OTADiagnostics.begin p1 t2) o2 n2).validated = false)
    (h2h : (runDiag (OTADiagnostics.begin p1 t2) o2 n2).halted = false)
    (p2 : Prefs) (e2 : p2 = (runDiag (OTADiagnostics.begin p1 t2) o2 n2).prefs)
    (h3v : (runDiag (OTADiagnostics.begin p2 t3) o3 n3).validated = false)
    (h3h : (runDiag (OTADiagnostics.begin p2 t3) o3 n3).halted = false)
    (p3 : Prefs) (e3 : p3 = (runDiag (OTADiagnostics.begin p2 t3) o3 n3).prefs) :
    OTADiagnostics.beginBoots p3 = 4 ∧
    OTADiagnostics.MAX_CRASH_ATTEMPTS < OTADiagnostics.beginBoots p3 ∧
    (OTADiagnostics.begin p3 t4).rollbackReason = some FailureReason.crashLoop ∧
    (OTADiagnostics.begin p3 t4).halted = true ∧
    (OTADiagnostics.begin p3 t4).prefs.last_fail = FailureReason.crashLoop ∧
    (OTADiagnostics.begin p3 t4).prefs.boot_count = 0 := by
  have q1 := runDiag_quiet _ o1 n1 h1v h1h
  have hb1 : p1.boot_count = 1 := by
    rw [e1, q1.1, begin_boot_count]
    simp [OTADiagnostics.beginBoots, OTADiagnostics.MAX_CRASH_ATTEMPTS, h0]
  have q2 := runDiag_quiet _ o2 n2 h2v h2h
  have hb2 : p2.boot_count = 2 := by
    rw [e2, q2.1, begin_boot_count]
    norm_num [OTADiagnostics.beginBoots, OTADiagnostics.MAX_CRASH_ATTEMPTS, hb1]
  have q3 := runDiag_quiet _ o3 n3 h3v h3h
  have hb3 : p3.boot_count = 3 := by
    rw [e3, q3.1, begin_boot_count]
    norm_num [OTADiagnostics.beginBoots, OTADiagnostics.MAX_CRASH_ATTEMPTS, hb2]
  have hbb : OTADiagnostics.beginBoots p3 = 4 := by
    simp [OTADiagnostics.beginBoots, hb3]
  have hlt : OTADiagnostics.MAX_CRASH_ATTEMPTS < OTADiagnostics.beginBoots p3 := by
    rw [hbb]
    norm_num [OTADiagnostics.MAX_CRASH_ATTEMPTS]
  rw [begin_crash p3 t4 hlt]
  exact ⟨hbb, hlt, rfl, rfl, rfl, rfl⟩

/-- C2 witness: the concrete four-boot chain from a fresh ledger with no
`check` calls in between. -/
theorem crash_loop_on_fourth_begin_witness :
    OTADiagnostics.beginBoots
        { boot_count := 3, last_fail := FailureReason.none, fail_ota_id := [] } = 4 ∧
    (OTADiagnostics.begin
        { boot_count := 3, last_fail := FailureReason.none, fail_ota_id := [] }
        1).rollbackReason = some FailureReason.crashLoop := by
  have h := crash_loop_on_fourth_begin freshPrefs rfl 1 1 1 1 cexObs cexObs cexObs 0 0 0
    (by decide) (by decide)
    { boot_count := 1, last_fail := FailureReason.none, fail_ota_id := [] } (by decide)
    (by decide) (by decide)
    { boot_count := 2, last_fail := FailureReason.none, fail_ota_id := [] } (by decide)
    (by decide) (by decide)
    { boot_count := 3, last_fail := FailureReason.none, fail_ota_id := [] } (by decide)
  exact ⟨h.1, h.2.2.1⟩

theorem reportRollback_sent (b : Bool) (s : OrchState) (h : s.reportSent = true) :
    reportRollback b s = s := by
  unfold reportRollback
  rw [if_pos h]

theorem reportRollback_none (b : Bool) (s : OrchState)
    (h : s.prefs.last_fail = FailureReason.none) :
    reportRollback b s = s := by
  unfold reportRollback
  split
  · rfl
  · rw [if_pos (by simpa [OTADiagnostics.getLastFailureReason] using h)]

theorem runReports_sent (outs : List Bool) (s : OrchState) (h : s.reportSent = true) :
    runReports outs s = s := by
  induction outs with
  | nil => rfl
  | cons b rest ih =>
    show runReports rest (reportRollback b s) = s
    rw [reportRollback_sent b s h, ih]

theorem runReports_none (outs : List Bool) (s : OrchState)
    (h : s.prefs.last_fail = FailureReason.none) :
    runReports outs s = s := by
  induction outs with
  | nil => rfl
  | cons b rest ih =>
    by_cases hs : s.reportSent = true
    · show runReports rest (reportRollback b s) = s
      rw [reportRollback_sent b s hs, ih]
    · show runReports rest (reportRollback b s) = s
      rw [reportRollback_none b s h, ih]

theorem runReports_cases (outs : List Bool) (s : OrchState) (h : s.reportSent = false) :
    runReports outs s = s ∨
    (s.prefs.last_fail ≠ FailureReason.none ∧
      runReports outs s =
        { s with
            prefs := OTADiagnostics.clearFailure s.prefs,
            reportSent := true,
            failReports := s.failReports ++ [(s.prefs.last_fail, s.prefs.fail_ota_id)] }) := by
  induction outs generalizing s with
  | nil => exact Or.inl rfl
  | cons b rest ih =>
    by_cases hn : s.prefs.last_fail = FailureReason.none
    · have heq : runReports (b :: rest) s = s := by
        show runReports rest (reportRollback b s) = s
        rw [reportRollback_none b s hn, runReports_none rest s hn]
      rw [heq]
      exact Or.inl rfl
    · cases b
      · have hrr : reportRollback false s = s := by
          unfold reportRollback
          rw [if_neg (by simp [h])]
          rw [if_neg (by simpa [OTADiagnostics.getLastFailureReason] using hn)]
          simp
        have heq : runReports (false :: rest) s = runReports rest s := by
          show runReports rest (reportRollback false s) = runReports rest s
          rw [hrr]
        rw [heq]
        exact ih s h
      · have hrr : reportRollback true s =
            { s with
                prefs := OTADiagnostics.clearFailure s.prefs,
                reportSent := true,
                failReports := s.failReports ++ [(s.prefs.last_fail, s.prefs.fail_ota_id)] } := by
          unfold reportRollback
          rw [if_neg (by simp [h])]
          rw [if_neg (by simpa [OTADiagnostics.getLastFailureReason] using hn)]
          rw [if_pos rfl]
          rfl
        have heq : runReports (true :: rest) s =
            { s with
                prefs := OTADiagnostics.clearFailure s.prefs,
                reportSent := true,
                failReports := s.failReports ++ [(s.prefs.last_fail, s.prefs.fail_ota_id)] } := by
          show runReports rest (reportRollback true s) = _
          rw [hrr, runReports_sent rest _ rfl]
        rw [heq]
        exact Or.inr ⟨hn, rfl⟩

/-- C5: over any sequence of re-entries of the reporting path in one boot
(each with its own publish outcome), starting from boot state
(`reportSent = false`, nothing yet reported): at most one failure report is
ever published; if none is published the persisted failure state is exactly
unchanged; and if one is published it carried the persisted reason and OTA
id, and only then were `last_fail` and `fail_ota_id` cleared, with the
once-per-boot guard set. -/
theorem failure_report_at_most_once (outs : List Bool) (s : OrchState)
    (h1 : s.reportSent = false) (h2 : s.failReports = []) :
    (runReports outs s).failReports.length ≤ 1 ∧
    ((runReports outs s).failReports = [] → (runReports outs s).prefs = s.prefs) ∧
    (∀ rep, (runReports outs s).failReports = [rep] →
      rep = (s.prefs.last_fail, s.prefs.fail_ota_id) ∧
      s.prefs.last_fail ≠ FailureReason.none ∧
      (runReports outs s).prefs.last_fail = FailureReason.none ∧
      (runReports outs s).prefs.fail_ota_id = [] ∧
      (runReports outs s).reportSent = true) := by
  rcases runReports_cases outs s h1 with hc | ⟨hn, hc⟩
  · rw [hc]
    refine ⟨by simp [h2], fun _ => rfl, fun rep hrep => absurd hrep (by simp [h2])⟩
  · rw [hc]
    refine ⟨by simp [h2], by simp [h2], fun rep hrep => ?_⟩
    simp [h2] at hrep
    exact ⟨hrep.symm, hn, rfl, rfl, rfl⟩

/-- C5 witness: a boot following an `Unstable` rollback of OTA id 33, with
a failed publish, then a successful one, then a further re-entry. -/
theorem failure_report_at_most_once_witness :
    (runReports [false, true, false] orchFail).failReports.length ≤ 1 ∧
    (runReports [false, true, false] orchFail).prefs.last_fail = FailureReason.none := by
  have h := failure_report_at_most_once [false, true, false] orchFail rfl rfl
  refine ⟨h.1, ?_⟩
  have := h.2.2 (FailureReason.unstable, "33".toList) (by decide)
  exact this.2.2.1

/-- C6 counterexample: a well-formed instruction carrying both required
fields `otaUrl` and `otaId` but no `otaVersion` is NOT handled: `callback`
leaves the state untouched because its dispatch test
`message.indexOf("otaVersion") > 0` fails, while a direct `handleOTAUpdate`
of the same message would have persisted the pending id and acted — so
whether the message is dispatched does branch on the optional field. -/
theorem update_without_version_not_dispatched :
    (parseOta cMsgNoVer).otaUrl.isSome = true ∧
    (parseOta cMsgNoVer).otaId = some ("33".toList) ∧
    callback UpdateResult.ok cMsgNoVer orch0 = orch0 ∧
    (handleOTAUpdate UpdateResult.ok cMsgNoVer orch0).restarted = true ∧
    (handleOTAUpdate UpdateResult.ok cMsgNoVer orch0).prefs.fail_ota_id = "33".toList ∧
    ¬ callback UpdateResult.ok cMsgNoVer orch0 =
        handleOTAUpdate UpdateResult.ok cMsgNoVer orch0 := by
  decide

/-- C6 (amended): the dispatcher forwards an inbound message to the update
handler only when the raw payload contains the substring "otaVersion" at a
position greater than 0 (a message without it is discarded even when it has
both `otaUrl` and `otaId`); once dispatched, the handling depends only on
the `otaUrl` and `otaId` fields — `otaVersion` is informational — and an
instruction missing `otaUrl` or `otaId` is discarded. -/
theorem dispatch_requires_version_token (ret : UpdateResult) (s : OrchState)
    (m1 m2 : List Char)
    (hu : (parseOta m1).otaUrl = (parseOta m2).otaUrl)
    (hi : (parseOta m1).otaId = (parseOta m2).otaId) :
    handleOTAUpdate ret m1 s = handleOTAUpdate ret m2 s ∧
    ((parseOta m1).otaUrl = Option.none ∨ (parseOta m1).otaId = Option.none →
      handleOTAUpdate ret m1 s = s) ∧
    (firstIndex otaVersionKey m1 = Option.none → callback ret m1 s = s) := by
  refine ⟨?_, ?_, ?_⟩
  · unfold handleOTAUpdate
    rw [hu, hi]
  · intro hmiss
    unfold handleOTAUpdate
    rcases hmiss with hm | hm
    · rw [hm]
    · rw [hm]
      cases (parseOta m1).otaUrl <;> rfl
  · intro hnone
    unfold callback hasVersionAfterStart
    rw [hnone]
    rfl

/-- C6 witness: the same instruction with and without the `otaVersion`
field parses to the same `otaUrl` and `otaId`, so the handler treats the two
payloads identically. -/
theorem dispatch_requires_version_token_witness :
    handleOTAUpdate UpdateResult.ok cMsgWithVer orch0 =
      handleOTAUpdate UpdateResult.ok cMsgNoVer orch0 :=
  (dispatch_requires_version_token UpdateResult.ok orch0 cMsgWithVer cMsgNoVer
    (by decide) (by decide)).1

/-- C7: an update attempt whose instruction carries `otaId` (persisted as
the pending id by the handler itself) and which fails during apply — the
`HTTP_UPDATE_FAILED` or `HTTP_UPDATE_NO_UPDATES` outcome, before any reboot
— publishes a `failed` status report for that id, clears the pending
`fail_ota_id` to empty, leaves `last_fail` unchanged at `None` (it was
`None` and `clearFailure` rewrites `None`), leaves `boot_count` untouched,
and does not restart the device. -/
theorem apply_failure_outcome (ret : UpdateResult) (msg : List Char) (s : OrchState)
    (url otaId : List Char)
    (hr : ret = UpdateResult.failed ∨ ret = UpdateResult.noUpdates)
    (hu : (parseOta msg).otaUrl = some url)
    (hi : (parseOta msg).otaId = some otaId)
    (hc : s.connected = true)
    (hf : s.prefs.last_fail = FailureReason.none) :
    (handleOTAUpdate ret msg s).statusReports = s.statusReports ++ [(OtaStatus.failed, otaId)] ∧
    (handleOTAUpdate ret msg s).prefs.fail_ota_id = [] ∧
    (handleOTAUpdate ret msg s).prefs.last_fail = FailureReason.none ∧
    (handleOTAUpdate ret msg s).prefs.boot_count = s.prefs.boot_count ∧
    (handleOTAUpdate ret msg s).restarted = s.restarted := by
  rcases hr with rfl | rfl <;>
    (unfold handleOTAUpdate
     rw [hu, hi]
     simp [publishOTAStatus, OTADiagnostics.clearFailure, OTADiagnostics.setPendingOTA, hc, hf])

/-- C7 witness: the concrete instruction for OTA id 33 failing on a
connected boot whose persisted reason is `None`. -/
theorem apply_failure_outcome_witness :
    (handleOTAUpdate UpdateResult.failed cMsgWithVer orch0).statusReports =
      [(OtaStatus.failed, "33".toList)] ∧
    (handleOTAUpdate UpdateResult.failed cMsgWithVer orch0).prefs.fail_ota_id = [] ∧
    (handleOTAUpdate UpdateResult.failed cMsgWithVer orch0).restarted = false := by
  have h := apply_failure_outcome UpdateResult.failed cMsgWithVer orch0
    ("https://example.com/fw.bin".toList) ("33".toList)
    (Or.inl rfl) (by decide) (by decide) rfl rfl
  exact ⟨h.1, h.2.1, h.2.2.2.2⟩

/-- C8: an update attempt whose instruction carries `otaId` and which
succeeds during apply publishes a `completed` status report for that id,
leaves the persisted pending id equal to that id at the moment of restart
(HTTP_UPDATE_OK does not clear it), restarts the device — unconditionally,
whatever the state — and leaves the other ledger fields (`boot_count`,
`last_fail`) unchanged. -/
theorem apply_success_outcome (msg : List Char) (s : OrchState)
    (url otaId : List Char)
    (hu : (parseOta msg).otaUrl = some url)
    (hi : (parseOta msg).otaId = some otaId)
    (hc : s.connected = true) :
    (handleOTAUpdate UpdateResult.ok msg s).statusReports =
      s.statusReports ++ [(OtaStatus.completed, otaId)] ∧
    (handleOTAUpdate UpdateResult.ok msg s).prefs.fail_ota_id = otaId ∧
    (handleOTAUpdate UpdateResult.ok msg s).restarted = true ∧
    (handleOTAUpdate UpdateResult.ok msg s).prefs.last_fail = s.prefs.last_fail ∧
    (handleOTAUpdate UpdateResult.ok msg s).prefs.boot_count = s.prefs.boot_count ∧
    (∀ s2 : OrchState, (handleOTAUpdate UpdateResult.ok msg s2).restarted = true) := by
  have he : ∀ s2 : OrchState, handleOTAUpdate UpdateResult.ok msg s2 =
      { publishOTAStatus OtaStatus.completed otaId
          { s2 with prefs := OTADiagnostics.setPendingOTA otaId s2.prefs } with
        restarted := true } := by
    intro s2
    unfold handleOTAUpdate
    rw [hu, hi]
  refine ⟨?_, ?_, ?_, ?_, ?_, fun s2 => ?_⟩
  · rw [he s]
    simp [publishOTAStatus, OTADiagnostics.setPendingOTA, hc]
  · rw [he s]
    by_cases hc2 : s.connected = false <;>
      simp [publishOTAStatus, OTADiagnostics.setPendingOTA, hc2]
  · rw [he s]
  · rw [he s]
    by_cases hc2 : s.connected = false <;>
      simp [publishOTAStatus, OTADiagnostics.setPendingOTA, hc2]
  · rw [he s]
    by_cases hc2 : s.connected = false <;>
      simp [publishOTAStatus, OTADiagnostics.setPendingOTA, hc2]
  · rw [he s2]

/-- C8 witness: the concrete instruction for OTA id 33 succeeding on a
connected boot. -/
theorem apply_success_outcome_witness :
    (handleOTAUpdate UpdateResult.ok cMsgWithVer orch0).statusReports =
      [(OtaStatus.completed, "33".toList)] ∧
    (handleOTAUpdate UpdateResult.ok cMsgWithVer orch0).prefs.fail_ota_id = "33".toList ∧
    (handleOTAUpdate UpdateResult.ok cMsgWithVer orch0).restarted = true := by
  have h := apply_success_outcome cMsgWithVer orch0
    ("https://example.com/fw.bin".toList) ("33".toList) (by decide) (by decide) rfl
  exact ⟨h.1, h.2.1, h.2.2.1⟩

/-- C10: on the failed and no-update outcomes of apply the handler calls
`clearFailure`, which writes `last_fail = REASON_NONE` unconditionally along
with clearing `fail_ota_id`; so a boot that still stores an unreported
failure reason when a new update attempt fails before reboot loses that
reason, and no later re-entry of the reporting path of this boot ever
publishes it — the reporting path sees `None` and publishes nothing. -/
theorem stale_failure_reason_erased (ret : UpdateResult) (msg : List Char)
    (s : OrchState) (url otaId : List Char) (r : FailureReason)
    (hr : ret = UpdateResult.failed ∨ ret = UpdateResult.noUpdates)
    (hu : (parseOta msg).otaUrl = some url)
    (hi : (parseOta msg).otaId = some otaId)
    (hfail : s.prefs.last_fail = r)
    (hne : r ≠ FailureReason.none) :
    (handleOTAUpdate ret msg s).prefs.last_fail = FailureReason.none ∧
    (handleOTAUpdate ret msg s).failReports = s.failReports ∧
    (∀ outs : List Bool,
      (runReports outs (handleOTAUpdate ret msg s)).failReports = s.failReports) := by
  have hclear : (handleOTAUpdate ret msg s).prefs.last_fail = FailureReason.none ∧
      (handleOTAUpdate ret msg s).failReports = s.failReports := by
    rcases hr with rfl | rfl <;>
      (unfold handleOTAUpdate
       rw [hu, hi]
       constructor <;>
         (by_cases hc2 : s.connected = false <;>
           simp [publishOTAStatus, OTADiagnostics.clearFailure,
             OTADiagnostics.setPendingOTA, hc2]))
  refine ⟨hclear.1, hclear.2, fun outs => ?_⟩
  rw [runReports_none outs _ hclear.1, hclear.2]

/-- C10 witness: a boot still storing the unreported `Unstable` reason for
OTA id 33 runs a new update attempt that fails; the reason is erased and a
later successful publish window reports nothing. -/
theorem stale_failure_reason_erased_witness :
    (handleOTAUpdate UpdateResult.failed cMsgWithVer orchFail).prefs.last_fail =
      FailureReason.none ∧
    (runReports [true] (handleOTAUpdate UpdateResult.failed cMsgWithVer orchFail)).failReports = [] := by
  have h := stale_failure_reason_erased UpdateResult.failed cMsgWithVer orchFail
    ("https://example.com/fw.bin".toList) ("33".toList) FailureReason.unstable
    (Or.inl rfl) (by decide) (by decide) rfl (by decide)
  exact ⟨h.1, h.2.2 [true]⟩

theorem specValidatedStrict_mono (boot : Nat) (o : Nat → Obs) {m n : Nat} (h : m ≤ n)
    (hs : specValidatedStrict boot o m) : specValidatedStrict boot o n := by
  obtain ⟨i, j, h1, h2, h3, h4, h5, h6⟩ := hs
  exact ⟨i, j, h1, by omega, h3, h4, h5, h6⟩

theorem runDiag_validated_mono (d0 : Diag) (o : Nat → Obs) {m n : Nat} (h : m ≤ n)
    (hv : (runDiag d0 o m).validated = true) : (runDiag d0 o n).validated = true := by
  induction n, h using Nat.le_induction with
  | base => exact hv
  | succ n _ ih =>
    show (step (WOp.checkOp (o n).wifi (o n).mqtt (o n).t) (runDiag d0 o n)).validated = true
    rw [step_check_frozen _ _ _ _ (Or.inr ih)]
    exact ih

theorem runDiag_invariant (p : Prefs)
    (hp : OTADiagnostics.beginBoots p ≤ OTADiagnostics.MAX_CRASH_ATTEMPTS)
    (boot : Nat) (hb : 1 ≤ boot) (o : Nat → Obs)
    (hmono : ∀ k l, k ≤ l → (o k).t ≤ (o l).t)
    (hge : ∀ k, boot ≤ (o k).t) (n : Nat) :
    diagInv boot o n (runDiag (OTADiagnostics.begin p boot) o n) := by
  induction n with
  | zero =>
    show diagInv boot o 0 (OTADiagnostics.begin p boot)
    rw [begin_of_le p boot hp]
    refine ⟨rfl, ?_, ?_, ?_⟩
    · intro hv
      exact absurd hv (by simp)
    · intro hh
      exact absurd hh (by simp)
    · intro _ _
      exact ⟨fun hs => absurd rfl hs, fun i hi _ => absurd hi (by omega)⟩
  | succ n ih =>
    obtain ⟨ihT, ihV, ihH, ihA⟩ := ih
    set d := runDiag (OTADiagnostics.begin p boot) o n with hd
    have hstep : runDiag (OTADiagnostics.begin p boot) o (n + 1) =
        step (WOp.checkOp (o n).wifi (o n).mqtt (o n).t) d := rfl
    by_cases hh : d.halted = true
    · rw [hstep, step_check_frozen _ _ _ _ (Or.inl hh)]
      refine ⟨ihT, ?_, ?_, ?_⟩
      · intro hv
        exact specValidatedStrict_mono boot o (Nat.le_succ n) (ihV hv)
      · intro _
        obtain ⟨k, hk, hkt⟩ := ihH hh
        exact ⟨k, by omega, hkt⟩
      · intro h1 _
        rw [hh] at h1
        cases h1
    · rw [Bool.not_eq_true] at hh
      by_cases hv : d.validated = true
      · rw [hstep, step_check_frozen _ _ _ _ (Or.inr hv)]
        refine ⟨ihT, ?_, ?_, ?_⟩
        · intro _
          exact specValidatedStrict_mono boot o (Nat.le_succ n) (ihV hv)
        · intro hhh
          rw [hhh] at hh
          cases hh
        · intro _ h2
          rw [h2] at hv
          cases hv
      · rw [Bool.not_eq_true] at hv
        rw [hstep, step_check_eq _ _ _ _ hh]
        by_cases ht : OTADiagnostics.TOTAL_PROBATION_LIMIT < (o n).t - d.bootTime
        · rw [check_deadline _ _ _ _ hv ht]
          refine ⟨ihT, ?_, ?_, ?_⟩
          · intro hvv
            exact absurd hvv (by simp [OTADiagnostics.triggerRollback, hv])
          · intro _
            rw [ihT] at ht
            exact ⟨n, by omega, by omega⟩
          · intro h1 _
            exact absurd h1 (by simp [OTADiagnostics.triggerRollback])
        · by_cases hup : ((o n).wifi && (o n).mqtt) = true
          · by_cases hs : d.stabilityStartTime = 0
            · rw [check_up_first _ _ _ _ ht hup hs, if_neg (by simp [hv])]
              refine ⟨ihT, ?_, ?_, ?_⟩
              · intro hvv
                exact absurd hvv (by simp [hv])
              · intro hhh
                exact absurd hhh (by simp [hh])
              · intro _ _
                constructor
                · intro _
                  refine ⟨n, by omega, by simp, ?_⟩
                  intro k h1 h2
                  have hkn : k = n := by omega
                  rw [hkn, bothUp]
                  exact hup
                · intro i hi hwin
                  rcases Nat.lt_or_ge i n with hilt | hige
                  · have hwn : upTo o i n := fun k h1 h2 => hwin k h1 (by omega)
                    exact absurd hs ((ihA hh hv).2 i hilt hwn).1
                  · have hin : i = n := by omega
                    subst hin
                    constructor
                    · have := hge i
                      simp
                      omega
                    · simp
            · by_cases hf : OTADiagnostics.STABILITY_DURATION < (o n).t - d.stabilityStartTime
              · rw [check_up_fire _ _ _ _ hv ht hup hs hf]
                obtain ⟨i, hin, hieq, hiwin⟩ := (ihA hh hv).1 hs
                rw [hieq] at hf
                refine ⟨?_, ?_, ?_, ?_⟩
                · simp [OTADiagnostics.validateFirmware, hv, ihT]
                · intro _
                  rw [ihT] at ht
                  refine ⟨i, n, by omega, by omega, ?_, hf, hge i, by omega⟩
                  intro k h1 h2
                  rcases Nat.lt_or_ge k n with hkn | hkn
                  · exact hiwin k h1 hkn
                  · have : k = n := by omega
                    rw [this, bothUp]
                    exact hup
                · intro hhh
                  exact absurd hhh (by simp [OTADiagnostics.validateFirmware, hv, hh])
                · intro _ h2
                  exact absurd h2 (by simp [OTADiagnostics.validateFirmware, hv])
              · rw [check_up_nofire _ _ _ _ hv ht hup hs hf]
                refine ⟨ihT, ?_, ?_, ?_⟩
                · intro hvv
                  rw [hvv] at hv
                  cases hv
                · intro hhh
                  rw [hhh] at hh
                  cases hh
                · intro _ _
                  obtain ⟨hA1, hA2⟩ := ihA hh hv
                  constructor
                  · intro hs2
                    obtain ⟨i, hin, hieq, hiwin⟩ := hA1 hs2
                    refine ⟨i, by omega, hieq, ?_⟩
                    intro k h1 h2
                    rcases Nat.lt_or_ge k n with hkn | hkn
                    · exact hiwin k h1 hkn
                    · have : k = n := by omega
                      rw [this, bothUp]
                      exact hup
                  · intro i hi hwin
                    rcases Nat.lt_or_ge i n with hilt | hige
                    · have hwn : upTo o i n := fun k h1 h2 => hwin k h1 (by omega)
                      exact hA2 i hilt hwn
                    · obtain ⟨i2, hi2n, hi2eq, _⟩ := hA1 hs
                      refine ⟨hs, ?_⟩
                      rw [hi2eq]
                      have hin : i = n := by omega
                      rw [hin]
                      exact hmono i2 n (by omega)
          · have hupf : ((o n).wifi && (o n).mqtt) = false := by
              simpa using hup
            rw [check_down _ _ _ _ hv ht hupf]
            refine ⟨ihT, ?_, ?_, ?_⟩
            · intro hvv
              exact absurd hvv (by simp [hv])
            · intro hhh
              exact absurd hhh (by simp [hh])
            · intro _ _
              constructor
              · intro hs2
                simp at hs2
              · intro i hi hwin
                have hwn := hwin n (by omega) (by omega)
                rw [bothUp, hupf] at hwn
                cases hwn

/-- C1 (amended): for a boot whose `begin` does not itself crash-loop, over
any monotonic observation trace starting at or after the boot instant (with
`millis() ≥ 1` at boot, so the 0 sentinel of the stability timer is never a
real timestamp), the in-memory `validated` flag is true after `n` `check`
calls if and only if some contiguous run of observations with both links up
spans STRICTLY more than `STABILITY_DURATION` (the code tests
`now - _stabilityStartTime > STABILITY_DURATION`) and lies entirely within
`[boot, boot + TOTAL_PROBATION_LIMIT]` — the hard-deadline rollback then
cannot have fired first. -/
theorem validated_iff_contiguous_uptime
    (p : Prefs) (hp : OTADiagnostics.beginBoots p ≤ OTADiagnostics.MAX_CRASH_ATTEMPTS)
    (boot : Nat) (hb : 1 ≤ boot) (o : Nat → Obs)
    (hmono : ∀ k l, k ≤ l → (o k).t ≤ (o l).t)
    (hge : ∀ k, boot ≤ (o k).t) (n : Nat) :
    (runDiag (OTADiagnostics.begin p boot) o n).validated = true ↔
      specValidatedStrict boot o n := by
  constructor
  · intro hv
    exact (runDiag_invariant p hp boot hb o hmono hge n).2.1 hv
  · rintro ⟨i, j, hij, hjn, hwin, hdur, hbi, hjlim⟩
    have hij' : i < j := by
      rcases Nat.lt_or_ge i j with h | h
      · exact h
      · have hieq : i = j := by omega
        subst hieq
        omega
    obtain ⟨jT, jV, jH, jA⟩ := runDiag_invariant p hp boot hb o hmono hge j
    set d := runDiag (OTADiagnostics.begin p boot) o j with hd
    have hstep : runDiag (OTADiagnostics.begin p boot) o (j + 1) =
        step (WOp.checkOp (o j).wifi (o j).mqtt (o j).t) d := rfl
    have hval : (runDiag (OTADiagnostics.begin p boot) o (j + 1)).validated = true := by
      by_cases hv : d.validated = true
      · rw [hstep, step_check_frozen _ _ _ _ (Or.inr hv)]
        exact hv
      · rw [Bool.not_eq_true] at hv
        by_cases hh : d.halted = true
        · exfalso
          obtain ⟨k, hk, hkt⟩ := jH hh
          have := hmono k j (by omega)
          omega
        · rw [Bool.not_eq_true] at hh
          rw [hstep, step_check_eq _ _ _ _ hh]
          have ht : ¬ OTADiagnostics.TOTAL_PROBATION_LIMIT < (o j).t - d.bootTime := by
            rw [jT]
            omega
          have hup : ((o j).wifi && (o j).mqtt) = true := by
            have := hwin j (by omega) (by omega)
            rw [bothUp] at this
            exact this
          have hwn : upTo o i j := fun k h1 h2 => hwin k h1 (by omega)
          obtain ⟨hsne, hsle⟩ := (jA hh hv).2 i hij' hwn
          have hf : OTADiagnostics.STABILITY_DURATION < (o j).t - d.stabilityStartTime := by
            omega
          rw [check_up_fire _ _ _ _ hv ht hup hsne hf]
          simp [OTADiagnostics.validateFirmware, hv]
    exact runDiag_validated_mono _ o (by omega : j + 1 ≤ n) hval

/-- C1 counterexample: both links up at 1 ms and at 60001 ms gives a
contiguous both-up interval of length exactly `STABILITY_DURATION` inside
the probation window — the specification words ("length at least
stability_duration") say this validates — yet the code does not validate,
because it requires `now - _stabilityStartTime` to STRICTLY exceed
`STABILITY_DURATION` (60000 ≤ 60000 fails the `>` test). -/
theorem validated_at_exact_duration_not_validated :
    specValidatedAtLeast 1 cexObs 2 ∧
    (runDiag (OTADiagnostics.begin freshPrefs 1) cexObs 2).validated = false := by
  constructor
  · refine ⟨0, 1, by omega, by omega, ?_, by decide, by decide, by decide⟩
    intro k h1 h2
    interval_cases k <;> rfl
  · decide

/-- C1 witness: with both links up at 1 ms and 60002 ms the run spans
60001 ms > `STABILITY_DURATION`, and the code validates. -/
theorem validated_iff_contiguous_uptime_witness :
    (runDiag (OTADiagnostics.begin freshPrefs 1) cexObsW 2).validated = true := by
  refine (validated_iff_contiguous_uptime freshPrefs (by decide) 1 (by decide) cexObsW
    ?_ ?_ 2).mpr ⟨0, 1, by omega, by omega, ?_, by decide, by decide, by decide⟩
  · intro k l hkl
    rcases k with _ | k <;> rcases l with _ | l <;> simp [cexObsW] <;> omega
  · intro k
    rcases k with _ | k <;> simp [cexObsW]
  · intro k h1 h2
    interval_cases k <;> rfl
